import Mathlib

/-!
Verification of the script-mode execution contract of the
`sagemaker-tensorflow-training-toolkit` tutorial repository.

The repository ships a tutorial notebook
(`examples/script_mode_train_any_tf_script_in_sage_maker.ipynb`, duplicated
as `unnamed/part_000`).  The notebook's own code consists of the
`ScriptModeTensorFlow` estimator subclass, the `tf_c/setup.py` build
customization, and the `tf_c/train_c.py` entry point; these are embedded
below directly from the source.  The Script Packager/Launcher that the
notebook drives (command-line derivation, channel environment variables,
dependency-install pipeline) lives outside the shipped sources, so those
operations are modelled from the specification's own wording, each marked
`Modelled from the spec:` in its doc comment.
-/

/-- A hyperparameter value as the notebook uses them: a number or a string
(`hyperparameters = {'num_epochs': 1, 'data_dir': '...', 'save_dir': '...'}`). -/
inductive HPValue where
  | num (n : Nat)
  | str (s : String)
deriving DecidableEq, Repr

/-- Python's `str()` applied to a hyperparameter value: numbers render in
decimal, strings are unchanged. -/
def HPValue.toArg : HPValue → String
  | .num n => toString n
  | .str s => s

/-- A parameter mapping: an association of hyperparameter names to values
(keys unique, supplied by the caller). -/
abbrev ParamMapping := List (String × HPValue)

/-- A channel mapping: channel names bound to data locations, as passed to
`estimator.fit({'training': inputs})`. -/
abbrev ChannelMapping := List (String × String)

/-- Modelled from the spec: the launcher's command-line derivation, which is
not part of the shipped sources.  Each parameter mapping entry `{key: value}`
becomes the two tokens `--key` and `str(value)`; per Scenario 1 the key's
underscores are preserved (`--num_epochs 1 --data_dir ... --save_dir ...`). -/
def deriveCmdLine (m : ParamMapping) : List String :=
  m.flatMap fun kv => ["--" ++ kv.1, kv.2.toArg]

/-- Modelled from the spec: the module name under which the launcher runs the
entry point — `train.py` is transformed into a Python module named `train`
(the `.py` extension is stripped). -/
def moduleName (entry_point : String) : String :=
  let cs := entry_point.data
  if cs.drop (cs.length - 3) = ['.', 'p', 'y'] then String.mk (cs.take (cs.length - 3))
  else entry_point

/-- The uppercase transform of a string, character by character. -/
def upperTransform (s : String) : String :=
  String.mk (s.data.map Char.toUpper)

/-- Modelled from the spec: the environment-variable name derived for a
channel — the fixed text `SM_CHANNEL_` followed by the uppercase transform of
the channel name. -/
def channelVarName (c : String) : String :=
  "SM_CHANNEL_" ++ upperTransform c

/-- Modelled from the spec: the fixed, conventional container path at which
channel `c`'s data is materialized (`/opt/ml/input/data/training` for the
`training` channel). -/
def channelPath (c : String) : String :=
  "/opt/ml/input/data/" ++ c

/-- Modelled from the spec: the channel environment variables the launcher
sets — one `SM_CHANNEL_<NAME>` entry per channel, bound to the materialized
local path of that channel's data. -/
def deriveEnv (ch : ChannelMapping) : List (String × String) :=
  ch.map fun cv => (channelVarName cv.1, channelPath cv.1)

/-- A script reading an environment variable: first binding of the name in
the environment list, if any. -/
def readEnv (env : List (String × String)) (name : String) : Option String :=
  match env with
  | [] => none
  | (k, v) :: rest => if k = name then some v else readEnv rest name

example : deriveCmdLine [("num_epochs", .num 1)] = ["--num_epochs", "1"] := by decide
example : moduleName "train.py" = "train" := by decide
example : channelVarName "training" = "SM_CHANNEL_TRAINING" := by decide

/-- The shape of a `source_dir` as the packaging convention sees it: whether
it contains a dependency manifest (`requirements.txt`) and whether it
contains a build-customization descriptor (`setup.py`). -/
structure SourceDir where
  hasManifest : Bool
  hasSetupDescriptor : Bool
deriving DecidableEq, Repr

/-- The `tf_c` source directory of the notebook: no `requirements.txt`, only
a `setup.py` whose `build_py.run` shells out to `get-tf-c.sh` (producing the
`hello_tf` binary) before the normal build. -/
def tfCSourceDir : SourceDir := { hasManifest := false, hasSetupDescriptor := true }

/-- The steps of the launch pipeline, in the launcher's vocabulary:
install manifest-declared packages, run declared build-customization hooks,
install the source directory as the importable unit, execute the entry
point. -/
inductive LaunchStep where
  | installDeps
  | buildHooks
  | installSource
  | execEntry
deriving DecidableEq, Repr

/-- Modelled from the spec: the launcher's linear pipeline plan, which is not
part of the shipped sources — manifest-declared packages first (when a
manifest exists), declared build hooks second (when a descriptor exists),
the source directory's own install third, and only then the entry point. -/
def launchPlan (d : SourceDir) : List LaunchStep :=
  (if d.hasManifest then [LaunchStep.installDeps] else []) ++
  (if d.hasSetupDescriptor then [LaunchStep.buildHooks] else []) ++
  [LaunchStep.installSource, LaunchStep.execEntry]

/-- Run pipeline steps in order against an oracle `r` telling which steps
succeed; execution stops at the first failing step.  Returns the trace of
attempted steps and whether the whole pipeline succeeded. -/
def runSteps (r : LaunchStep → Bool) : List LaunchStep → List LaunchStep × Bool
  | [] => ([], true)
  | s :: rest =>
    if r s then
      let t := runSteps r rest
      (s :: t.1, t.2)
    else ([s], false)

/-- Modelled from the spec: a whole launch — the pipeline of `launchPlan`
executed in order, aborting at the first failure. -/
def runLaunch (d : SourceDir) (r : LaunchStep → Bool) : List LaunchStep × Bool :=
  runSteps r (launchPlan d)

example : runLaunch tfCSourceDir (fun _ => true) =
    ([.buildHooks, .installSource, .execEntry], true) := by decide
example : runLaunch { hasManifest := true, hasSetupDescriptor := true }
    (fun s => s != .installDeps) = ([.installDeps], false) := by decide

/-- The outcome status of a training job as reported to the caller. -/
inductive JobStatus where
  | succeeded
  | failed
deriving DecidableEq, Repr

/-- What the caller receives when a launch finishes: the status, and as
diagnostic payload the exit code of the launched process together with its
captured log output; `attempts` counts how many times the entry-point
process was started. -/
structure JobReport where
  status : JobStatus
  exitCode : Nat
  log : List String
  attempts : Nat
deriving DecidableEq, Repr

/-- Modelled from the spec: how the contract reports the launched process's
termination — a non-zero exit code becomes a training-job failure, the exit
code and the captured log are surfaced as the diagnostic payload, and the
process is started exactly once (no internal retry). -/
def reportJob (exitCode : Nat) (log : List String) : JobReport :=
  { status := if exitCode = 0 then .succeeded else .failed
    exitCode := exitCode
    log := log
    attempts := 1 }

/-- The exact banner `tf_c/hello_tf.c` is expected to print, byte for byte
(`train_c.py` compares against `b'Hello from TensorFlow C library version
1.11.0\n'`). -/
def expectedBanner : String := "Hello from TensorFlow C library version 1.11.0\n"

/-- The exit code of `tf_c/train_c.py` as a function of what the `hello_tf`
binary printed: the script runs `subprocess.check_output('hello_tf')` and
asserts the captured output equals the expected banner; a passing assert
exits 0, a failing assert raises and exits 1. -/
def trainCExitCode (binaryOutput : String) : Nat :=
  if binaryOutput = expectedBanner then 0 else 1

/-- The keyword arguments forwarded to the base `Framework` constructor in
the notebook's estimator construction (`entry_point`, `source_dir`,
`train_instance_type`, `train_instance_count`, `hyperparameters`, `role`),
plus `image_name` and `framework_version` which a caller could also pass
through `**kwargs`. -/
structure EstimatorKwargs where
  entry_point : Option String
  source_dir : Option String
  train_instance_type : Option String
  train_instance_count : Option Nat
  hyperparameters : ParamMapping
  role : Option String
  image_name : Option String
  framework_version : Option String

/-- The attribute state of an estimator instance after construction. -/
structure EstimatorState where
  entry_point : Option String
  source_dir : Option String
  train_instance_type : Option String
  train_instance_count : Option Nat
  hyperparameters : ParamMapping
  role : Option String
  image_name : Option String
  framework_version : Option String
  py_version : Option String

/-- The base `Framework` constructor (external SDK), modelled as storing each
keyword argument on the instance; it does not set `py_version`. -/
def Framework.initState (kw : EstimatorKwargs) : EstimatorState :=
  { entry_point := kw.entry_point
    source_dir := kw.source_dir
    train_instance_type := kw.train_instance_type
    train_instance_count := kw.train_instance_count
    hyperparameters := kw.hyperparameters
    role := kw.role
    image_name := kw.image_name
    framework_version := kw.framework_version
    py_version := none }

/-- `ScriptModeTensorFlow.__init__`, embedded from the notebook: it calls the
base constructor with `**kwargs`, then assigns `self.py_version =
py_version`, `self.image_name = None`, and `self.framework_version` to a
fixed string literal (`'1.10.0'` in `unnamed/part_000`, `'1.11'` in the
`examples` copy); `fwLiteral` is that literal. -/
def ScriptModeTensorFlow.initWith (fwLiteral : String) (py_version : String)
    (kw : EstimatorKwargs) : EstimatorState :=
  let s := Framework.initState kw
  { s with py_version := some py_version
           image_name := none
           framework_version := some fwLiteral }

/-- The `unnamed/part_000` variant: `self.framework_version = '1.10.0'`. -/
def ScriptModeTensorFlow.initBeta (py_version : String) (kw : EstimatorKwargs) :
    EstimatorState :=
  ScriptModeTensorFlow.initWith "1.10.0" py_version kw

/-- The `examples` notebook variant: `self.framework_version = '1.11'`. -/
def ScriptModeTensorFlow.initRelease (py_version : String) (kw : EstimatorKwargs) :
    EstimatorState :=
  ScriptModeTensorFlow.initWith "1.11" py_version kw

/-- Construction without an explicit `py_version`: the Python default
parameter value `py_version='py3'` applies. -/
def ScriptModeTensorFlow.initDefaultPy (fwLiteral : String) (kw : EstimatorKwargs) :
    EstimatorState :=
  ScriptModeTensorFlow.initWith fwLiteral "py3" kw

/-- Helper: prepending a fixed string is injective on strings. -/
theorem append_left_injective (pre a b : String) (h : pre ++ a = pre ++ b) :
    a = b := by
  have hd := congrArg String.data h
  simp only [String.data_append] at hd
  exact String.ext (List.append_cancel_left hd)

/-- C1: the parameter mapping `{num_epochs: 1, data_dir:
"/opt/ml/input/data/training", save_dir: "/opt/ml/model"}` derives exactly
the tokens `--num_epochs 1 --data_dir /opt/ml/input/data/training --save_dir
/opt/ml/model` — each entry becoming `--key` and `str(value)` with
underscores preserved — and entry point `train.py` is executed as Python
module `train`. -/
theorem scenario1_cmdline_and_module :
    deriveCmdLine [("num_epochs", HPValue.num 1),
                   ("data_dir", HPValue.str "/opt/ml/input/data/training"),
                   ("save_dir", HPValue.str "/opt/ml/model")] =
      ["--num_epochs", "1",
       "--data_dir", "/opt/ml/input/data/training",
       "--save_dir", "/opt/ml/model"] ∧
    moduleName "train.py" = "train" := by
  decide

/-- C2 counterexample: the derived variable naming is not injective on all
channel names — the distinct channel names `"a"` and `"A"` derive the same
environment-variable name `SM_CHANNEL_A`. -/
theorem channelVarName_not_injective :
    "a" ≠ "A" ∧ channelVarName "a" = channelVarName "A" := by
  decide

/-- C2 (amended): for every channel name `C` the launcher derives the
variable `SM_CHANNEL_` followed by the uppercase transform of `C`, and for
any two channel names whose uppercase transforms differ, the derived
variable names are distinct. -/
theorem channelVarName_form_and_inj (c c₁ c₂ : String)
    (h : upperTransform c₁ ≠ upperTransform c₂) :
    channelVarName c = "SM_CHANNEL_" ++ upperTransform c ∧
    channelVarName c₁ ≠ channelVarName c₂ := by
  refine ⟨rfl, fun heq => h ?_⟩
  exact append_left_injective "SM_CHANNEL_" _ _ heq

/-- C2 witness: the amended statement at the concrete channel names
`training` and `testing`. -/
theorem channelVarName_form_and_inj_witness :
    channelVarName "training" = "SM_CHANNEL_" ++ upperTransform "training" ∧
    channelVarName "training" ≠ channelVarName "testing" :=
  channelVarName_form_and_inj "training" "training" "testing" (by decide)

/-- C3: after a launch with channel mapping `{training: p}` for any local
path `p`, a script reading `SM_CHANNEL_TRAINING` obtains exactly the path
where the launcher materialized the training channel's data, namely
`/opt/ml/input/data/training`. -/
theorem sm_channel_training_roundtrip (p : String) :
    readEnv (deriveEnv [("training", p)]) "SM_CHANNEL_TRAINING" =
      some (channelPath "training") ∧
    channelPath "training" = "/opt/ml/input/data/training" := by
  constructor
  · show readEnv [(channelVarName "training", channelPath "training")]
        "SM_CHANNEL_TRAINING" = some (channelPath "training")
    decide
  · decide

/-- C4: determinism — deriving the command line and the environment twice
from identical parameter and channel mappings yields identical results. -/
theorem derivation_deterministic (m m' : ParamMapping) (ch ch' : ChannelMapping)
    (hm : m = m') (hc : ch = ch') :
    deriveCmdLine m = deriveCmdLine m' ∧ deriveEnv ch = deriveEnv ch' := by
  subst hm; subst hc; exact ⟨rfl, rfl⟩

/-- C4 witness: determinism at the Scenario 1 parameter mapping and the
`training` channel mapping. -/
theorem derivation_deterministic_witness :
    deriveCmdLine [("num_epochs", HPValue.num 1)] =
      deriveCmdLine [("num_epochs", HPValue.num 1)] ∧
    deriveEnv [("training", "/local/sherlock")] =
      deriveEnv [("training", "/local/sherlock")] :=
  derivation_deterministic [("num_epochs", HPValue.num 1)]
    [("num_epochs", HPValue.num 1)] [("training", "/local/sherlock")]
    [("training", "/local/sherlock")] rfl rfl

/-- C5: an empty parameter mapping derives a command line with no flag
tokens at all, while every channel present in the channel mapping still gets
its `SM_CHANNEL_*` environment variable. -/
theorem empty_params_no_flags (ch : ChannelMapping) (c loc : String)
    (h : (c, loc) ∈ ch) :
    deriveCmdLine [] = [] ∧
    (channelVarName c, channelPath c) ∈ deriveEnv ch :=
  ⟨rfl, List.mem_map.mpr ⟨(c, loc), h, rfl⟩⟩

/-- C5 witness: the empty mapping carries no flags and the `training`
channel of a one-channel mapping still gets its variable. -/
theorem empty_params_no_flags_witness :
    deriveCmdLine [] = [] ∧
    (channelVarName "training", channelPath "training") ∈
      deriveEnv [("training", "/local/sherlock")] :=
  empty_params_no_flags [("training", "/local/sherlock")] "training"
    "/local/sherlock" (by decide)

/-- C6: with both a manifest and a build-customization descriptor present,
the pipeline is exactly manifest-install first, build hooks second, source
install third, entry point last; and whenever the entry point runs, all
three install steps ran (successfully) before it. -/
theorem install_order (d : SourceDir) (r : LaunchStep → Bool)
    (hm : d.hasManifest = true) (hs : d.hasSetupDescriptor = true) :
    launchPlan d = [.installDeps, .buildHooks, .installSource, .execEntry] ∧
    (LaunchStep.execEntry ∈ (runLaunch d r).1 →
      (runLaunch d r).1 =
        [.installDeps, .buildHooks, .installSource, .execEntry]) := by
  have hplan : launchPlan d =
      [.installDeps, .buildHooks, .installSource, .execEntry] := by
    simp [launchPlan, hm, hs]
  refine ⟨hplan, fun hmem => ?_⟩
  unfold runLaunch at hmem ⊢
  rw [hplan] at hmem ⊢
  cases h1 : r .installDeps <;> cases h2 : r .buildHooks <;>
    cases h3 : r .installSource <;> cases h4 : r .execEntry <;>
    simp [runSteps, h1, h2, h3, h4] at hmem ⊢

/-- C6 witness: the full four-step order at a concrete source directory with
manifest and descriptor, all steps succeeding. -/
theorem install_order_witness :
    launchPlan ⟨true, true⟩ =
      [.installDeps, .buildHooks, .installSource, .execEntry] ∧
    (runLaunch ⟨true, true⟩ (fun _ => true)).1 =
      [.installDeps, .buildHooks, .installSource, .execEntry] :=
  ⟨(install_order ⟨true, true⟩ (fun _ => true) rfl rfl).1,
   (install_order ⟨true, true⟩ (fun _ => true) rfl rfl).2 (by decide)⟩

/-- C7: if installing a manifest-declared dependency fails, the launch
aborts with a failure surfaced to the caller, and the entry-point process is
never started. -/
theorem deps_failure_aborts (d : SourceDir) (r : LaunchStep → Bool)
    (hm : d.hasManifest = true) (hf : r .installDeps = false) :
    runLaunch d r = ([.installDeps], false) ∧
    LaunchStep.execEntry ∉ (runLaunch d r).1 := by
  have habort : runLaunch d r = ([.installDeps], false) := by
    unfold runLaunch launchPlan
    rw [hm]
    simp [runSteps, hf]
  refine ⟨habort, ?_⟩
  rw [habort]
  decide

/-- C7 witness: a concrete launch whose dependency install fails aborts
without reaching the entry point. -/
theorem deps_failure_aborts_witness :
    runLaunch ⟨true, true⟩ (fun _ => false) = ([.installDeps], false) ∧
    LaunchStep.execEntry ∉ (runLaunch ⟨true, true⟩ (fun _ => false)).1 :=
  deps_failure_aborts ⟨true, true⟩ (fun _ => false) rfl rfl

/-- C8: Scenario 3 — with empty parameter and channel mappings the entry
point gets no arguments and no channel variables; the `tf_c` launch runs the
build hook (installing the `hello_tf` binary) before the source install and
the entry point, succeeding when every step succeeds; and `train_c.py`
exits 0 only if the binary printed the exact expected banner bytes. -/
theorem scenario3_tf_c (msg : String) (h : trainCExitCode msg = 0) :
    deriveCmdLine [] = [] ∧ deriveEnv [] = [] ∧
    runLaunch tfCSourceDir (fun _ => true) =
      ([.buildHooks, .installSource, .execEntry], true) ∧
    msg = expectedBanner := by
  refine ⟨rfl, rfl, by decide, ?_⟩
  by_contra hne
  simp [trainCExitCode, hne] at h

/-- C8 witness: the banner itself makes `train_c.py` exit 0 and the launch
conclusions hold. -/
theorem scenario3_tf_c_witness :
    deriveCmdLine [] = [] ∧ deriveEnv [] = [] ∧
    runLaunch tfCSourceDir (fun _ => true) =
      ([.buildHooks, .installSource, .execEntry], true) ∧
    "Hello from TensorFlow C library version 1.11.0\n" = expectedBanner :=
  scenario3_tf_c "Hello from TensorFlow C library version 1.11.0\n" (by decide)

/-- C9: a non-zero exit code of the launched process is reported as a
training-job failure; the diagnostic payload is exactly the exit code and
the captured log, and the process is started exactly once (no retry). -/
theorem nonzero_exit_reported (ec : Nat) (log : List String) (h : ec ≠ 0) :
    (reportJob ec log).status = .failed ∧
    (reportJob ec log).exitCode = ec ∧
    (reportJob ec log).log = log ∧
    (reportJob ec log).attempts = 1 := by
  refine ⟨?_, rfl, rfl, rfl⟩
  simp [reportJob, h]

/-- C9 witness: exit code 1 with a concrete log line is reported as a
failure with that payload and a single attempt. -/
theorem nonzero_exit_reported_witness :
    (reportJob 1 ["AssertionError"]).status = .failed ∧
    (reportJob 1 ["AssertionError"]).exitCode = 1 ∧
    (reportJob 1 ["AssertionError"]).log = ["AssertionError"] ∧
    (reportJob 1 ["AssertionError"]).attempts = 1 :=
  nonzero_exit_reported 1 ["AssertionError"] (by decide)

/-- C10: every `ScriptModeTensorFlow` instance, immediately after
construction, has `image_name = None` and `framework_version` equal to the
fixed literal set in `__init__` (`'1.10.0'` in `unnamed/part_000`, `'1.11'`
in the `examples` copy), regardless of the keyword arguments passed through
to the base constructor; an instance constructed without an explicit
`py_version` has `py_version = 'py3'`. -/
theorem scriptModeTF_ctor_overrides (kw : EstimatorKwargs) (pv fw : String) :
    (ScriptModeTensorFlow.initWith fw pv kw).image_name = none ∧
    (ScriptModeTensorFlow.initWith fw pv kw).framework_version = some fw ∧
    (ScriptModeTensorFlow.initBeta pv kw).framework_version = some "1.10.0" ∧
    (ScriptModeTensorFlow.initRelease pv kw).framework_version = some "1.11" ∧
    (ScriptModeTensorFlow.initDefaultPy fw kw).py_version = some "py3" :=
  ⟨rfl, rfl, rfl, rfl, rfl⟩
